import Mathlib

/-!
Verification of the schema-pipeline core of the prisma-engines repository:
a shallow embedding of the SQL schema model, the data model, the
introspector (SQL schema to data model), the SQLite destructive-change
checker, the MSSQL DDL renderer, the Postgres native-type calculator and
the migrations-folder script functions, together with theorems settling
the specified behaviour of each.
-/

namespace Prisma

/-! ## SQL schema model (sql_schema_describer) -/

/-- Column arity of an SQL column (sql_schema_describer::ColumnArity). -/
inductive ColumnArity where
  | required
  | nullable
  | list
deriving DecidableEq, Repr

/-- Coarse type family of an SQL column (sql_schema_describer::ColumnTypeFamily). -/
inductive ColumnTypeFamily where
  | int
  | float
  | boolean
  | string
  | dateTime
  | binary
  | json
  | uuid
  | enum (name : String)
  | geometric
  | logSequenceNumber
  | textSearch
  | transactionId
deriving DecidableEq, Repr

/-- The Display rendering of a ColumnTypeFamily, as used by the unit tests
to name columns after their family (Modelled from the spec: the Display
implementation lives in the sql-schema-describer crate, outside src). -/
def ColumnTypeFamily.toDisplayString : ColumnTypeFamily → String
  | .int => "Int"
  | .float => "Float"
  | .boolean => "Boolean"
  | .string => "String"
  | .dateTime => "DateTime"
  | .binary => "Binary"
  | .json => "Json"
  | .uuid => "Uuid"
  | .enum name => name
  | .geometric => "Geometric"
  | .logSequenceNumber => "LogSequenceNumber"
  | .textSearch => "TextSearch"
  | .transactionId => "TransactionId"

/-- Literal values appearing in defaults (prisma_value::PrismaValue,
restricted to the constructors the embedded code paths use). -/
inductive PrismaValue where
  | int (i : Int)
  | string (s : String)
  | boolean (b : Bool)
  | enum (s : String)
deriving DecidableEq, Repr

/-- Display rendering of a PrismaValue (used by the MSSQL default renderer). -/
def PrismaValue.render : PrismaValue → String
  | .int i => toString i
  | .string s => s
  | .boolean b => if b then "true" else "false"
  | .enum s => s

/-- sql_schema_describer::DefaultValue. -/
inductive DefaultValue where
  | value (v : PrismaValue)
  | now
  | dbGenerated (expr : String)
  | sequence (name : String)
deriving DecidableEq, Repr

/-- sql_schema_describer::ColumnType. The nativeType field defaults to
none, matching ColumnType::pure in the unit tests. -/
structure ColumnType where
  dataType : String := ""
  fullDataType : String := ""
  characterMaximumLength : Option Nat := none
  family : ColumnTypeFamily
  arity : ColumnArity
  nativeType : Option String := none
deriving DecidableEq, Repr

/-- ColumnType::pure: a column type carrying only family and arity. -/
def ColumnType.pure (family : ColumnTypeFamily) (arity : ColumnArity) : ColumnType :=
  { family := family, arity := arity }

/-- sql_schema_describer::Column. -/
structure Column where
  name : String
  tpe : ColumnType
  default : Option DefaultValue := none
  autoIncrement : Bool := false
deriving DecidableEq, Repr

/-- sql_schema_describer::Sequence. -/
structure Sequence where
  name : String
  initialValue : Int
  allocationSize : Int
deriving DecidableEq, Repr

/-- sql_schema_describer::PrimaryKey. -/
structure PrimaryKey where
  columns : List String
  sequence : Option Sequence := none
  constraintName : Option String := none
deriving DecidableEq, Repr

/-- sql_schema_describer::ForeignKeyAction. -/
inductive ForeignKeyAction where
  | noAction
  | restrict
  | cascade
  | setNull
  | setDefault
deriving DecidableEq, Repr

/-- sql_schema_describer::ForeignKey. -/
structure ForeignKey where
  constraintName : Option String := none
  columns : List String
  referencedTable : String
  referencedColumns : List String
  onDeleteAction : ForeignKeyAction := .noAction
  onUpdateAction : ForeignKeyAction := .noAction
deriving DecidableEq, Repr

/-- sql_schema_describer::IndexType. -/
inductive IndexType where
  | unique
  | normal
deriving DecidableEq, Repr

/-- sql_schema_describer::Index. -/
structure Index where
  name : String
  columns : List String
  tpe : IndexType
deriving DecidableEq, Repr

/-- sql_schema_describer::Table. -/
structure Table where
  name : String
  columns : List Column
  indices : List Index := []
  primaryKey : Option PrimaryKey := none
  foreignKeys : List ForeignKey := []
deriving DecidableEq, Repr

/-- sql_schema_describer::Enum. -/
structure SqlEnum where
  name : String
  values : List String
deriving DecidableEq, Repr

/-- sql_schema_describer::SqlSchema. -/
structure SqlSchema where
  tables : List Table
  enums : List SqlEnum := []
  sequences : List Sequence := []
deriving DecidableEq, Repr

/-- Replace every occurrence of a character by a string (the
str::replace calls of the source, specialised to the one-character
patterns they use). -/
def replaceChar (s : String) (c : Char) (r : String) : String :=
  String.mk (s.data.foldr (fun ch acc => (if ch = c then r.data else [ch]) ++ acc) [])

/-- The single-quote character, as used by escape_string_literal. -/
def singleQuoteChar : Char := Char.ofNat 39

/-! ## SQLite destructive-change checker
(sql_destructive_change_checker/destructive_change_checker_flavour/sqlite.rs) -/

/-- The two column states compared by an AlterColumn step
(sql_schema_differ::ColumnDiffer).  Modelled from the spec: the differ
that produces ColumnDiffer values is outside src; per spec section 4.4 it
pairs the kept column of the previous schema with the one of the next
schema and exposes type_changed and arity_changed flags. -/
structure ColumnDiffer where
  tableName : String
  previous : Column
  next : Column
deriving DecidableEq, Repr

/-- ColumnChanges::type_changed: the column type family changed.
Modelled from the spec (section 4.4), the differ is outside src. -/
def ColumnDiffer.typeChanged (d : ColumnDiffer) : Bool :=
  d.previous.tpe.family != d.next.tpe.family

/-- ColumnChanges::arity_changed: the column arity changed.
Modelled from the spec (section 4.4), the differ is outside src. -/
def ColumnDiffer.arityChanged (d : ColumnDiffer) : Bool :=
  d.previous.tpe.arity != d.next.tpe.arity

/-- The unexecutable-step kinds pushed by the embedded checker
(sql_destructive_change_checker::unexecutable_step_check). -/
inductive UnexecutableStepCheck where
  | madeOptionalFieldRequired (table : String) (column : String)
deriving DecidableEq, Repr

/-- Warning kinds (sql_destructive_change_checker::warning_check).  The
alterColumn variant is the one the SQLite checker in src pushes; the
typeChanged variant is Modelled from the spec (section 4.6 names a
TypeChanged warning) so that its absence from the output is statable. -/
inductive SqlMigrationWarningCheck where
  | alterColumn (table : String) (column : String)
  | typeChanged (table : String) (column : String)
deriving DecidableEq, Repr

/-- sql_destructive_change_checker::destructive_check_plan::DestructiveCheckPlan. -/
structure DestructiveCheckPlan where
  warnings : List (SqlMigrationWarningCheck × Nat) := []
  unexecutables : List (UnexecutableStepCheck × Nat) := []
deriving DecidableEq, Repr

/-- DestructiveCheckPlan::push_warning. -/
def DestructiveCheckPlan.pushWarning (p : DestructiveCheckPlan)
    (w : SqlMigrationWarningCheck) (stepIndex : Nat) : DestructiveCheckPlan :=
  { p with warnings := p.warnings ++ [(w, stepIndex)] }

/-- DestructiveCheckPlan::push_unexecutable. -/
def DestructiveCheckPlan.pushUnexecutable (p : DestructiveCheckPlan)
    (u : UnexecutableStepCheck) (stepIndex : Nat) : DestructiveCheckPlan :=
  { p with unexecutables := p.unexecutables ++ [(u, stepIndex)] }

/-- DestructiveChangeCheckerFlavour::check_alter_column for SqliteFlavour.
Returns none exactly where the source reaches unreachable (a List arity on
either side); otherwise returns the updated plan. -/
def checkAlterColumn (columns : ColumnDiffer) (plan : DestructiveCheckPlan)
    (stepIndex : Nat) : Option DestructiveCheckPlan :=
  match (columns.previous.tpe.arity, columns.next.tpe.arity) with
  | (.list, _) | (_, .list) => none
  | (prev, next) =>
    let arityChangeIsSafe : Bool :=
      match prev, next with
      | .nullable, .required => false
      | .required, .nullable => true
      | .required, .required | .nullable, .nullable => true
      | .list, _ | _, .list => false
    if !columns.typeChanged && arityChangeIsSafe then
      some plan
    else
      let plan :=
        if columns.arityChanged && columns.next.tpe.arity == .required
            && columns.next.default.isNone then
          plan.pushUnexecutable
            (.madeOptionalFieldRequired columns.tableName columns.previous.name)
            stepIndex
        else
          plan
      some (plan.pushWarning
        (.alterColumn columns.tableName columns.next.name) stepIndex)

/-! ## MSSQL renderer (sql_renderer/mssql_renderer.rs) -/

/-- Quoted::mssql_ident: MSSQL identifiers are quoted with brackets.
Modelled from the spec (section 6: MSSQL uses bracket quoting); the
Quoted helper lives outside src. -/
def mssqlIdent (name : String) : String :=
  "[" ++ name ++ "]"

/-- The default schema name prefix used by MssqlFlavour::schema_name.
Modelled from the spec (section 4.1: schema_name is the default schema
prefix on MSSQL); the flavour struct is outside src. -/
def mssqlSchemaName : String :=
  "dbo"

/-- MssqlFlavour::quote_with_schema: the schema prefix followed by the
bracket-quoted name. -/
def mssqlQuoteWithSchema (name : String) : String :=
  mssqlSchemaName ++ "." ++ mssqlIdent name

/-- IteratorJoin::join: interpose a separator between rendered items. -/
def joinSep (sep : String) (items : List String) : String :=
  String.intercalate sep items

/-- sql_migration::CreateIndex. -/
structure CreateIndex where
  table : String
  index : Index
  causedByCreateTable : Bool := false
  containsNullableColumns : Bool
deriving DecidableEq, Repr

/-- SqlRenderer::render_create_index for MssqlFlavour: translated
clause-for-clause from the source, with the filter condition computed
exactly as in the source match on the index type. -/
def renderCreateIndex (ci : CreateIndex) : String :=
  let indexType := match ci.index.tpe with
    | .unique => "UNIQUE "
    | .normal => ""
  let indexName := mssqlIdent (replaceChar ci.index.name '.' "_")
  let tableReference := mssqlQuoteWithSchema ci.table
  let condition := match ci.index.tpe with
    | .unique =>
      if ci.containsNullableColumns then
        " WHERE " ++
          joinSep " AND " (ci.index.columns.map (fun c => mssqlIdent c ++ " IS NOT NULL"))
      else ""
    | .normal => ""
  let columns := joinSep ", " (ci.index.columns.map mssqlIdent)
  "CREATE " ++ indexType ++ "INDEX " ++ indexName ++ " ON " ++ tableReference ++
    "(" ++ columns ++ ")" ++ condition

/-- The CREATE INDEX statement without any filter clause, written from the
claim wording for comparison with the source-derived renderCreateIndex. -/
def createIndexPlainPart (ci : CreateIndex) : String :=
  "CREATE " ++ (match ci.index.tpe with | .unique => "UNIQUE " | .normal => "") ++
    "INDEX " ++ mssqlIdent (replaceChar ci.index.name '.' "_") ++ " ON " ++
    mssqlQuoteWithSchema ci.table ++ "(" ++
    joinSep ", " (ci.index.columns.map mssqlIdent) ++ ")"

/-- The trailing filter clause the claim describes: WHERE, then one
IS NOT NULL conjunct per index column, each column bracket-quoted. -/
def createIndexFilterClause (ci : CreateIndex) : String :=
  " WHERE " ++
    joinSep " AND " (ci.index.columns.map (fun c => mssqlIdent c ++ " IS NOT NULL"))

/-- common::render_on_delete.  Modelled from the spec (section 4.1:
clause rendering of the configured action); common.rs is outside src. -/
def renderOnDelete : ForeignKeyAction → String
  | .noAction => "ON DELETE NO ACTION"
  | .restrict => "ON DELETE RESTRICT"
  | .cascade => "ON DELETE CASCADE"
  | .setNull => "ON DELETE SET NULL"
  | .setDefault => "ON DELETE SET DEFAULT"

/-- common::render_on_update.  Modelled from the spec (section 4.1);
common.rs is outside src. -/
def renderOnUpdate : ForeignKeyAction → String
  | .noAction => "ON UPDATE NO ACTION"
  | .restrict => "ON UPDATE RESTRICT"
  | .cascade => "ON UPDATE CASCADE"
  | .setNull => "ON UPDATE SET NULL"
  | .setDefault => "ON UPDATE SET DEFAULT"

/-- SqlRenderer::render_references for MssqlFlavour: self-referencing
foreign keys force NO ACTION on both clauses; otherwise the configured
actions are rendered. -/
def renderReferences (table : String) (foreignKey : ForeignKey) : String :=
  let cols := joinSep "," (foreignKey.referencedColumns.map mssqlIdent)
  let isSelfRelation := table == foreignKey.referencedTable
  let onDelete :=
    if isSelfRelation then "ON DELETE NO ACTION" else renderOnDelete foreignKey.onDeleteAction
  let onUpdate :=
    if isSelfRelation then "ON UPDATE NO ACTION" else renderOnUpdate foreignKey.onUpdateAction
  " REFERENCES " ++ mssqlQuoteWithSchema foreignKey.referencedTable ++ "(" ++ cols ++ ") " ++
    onDelete ++ " " ++ onUpdate

/-- The ways the MSSQL alter-table rendering can fail to return: the
todo macro on AlterColumn, the unwrap of a missing DropPrimaryKey
constraint name, the unimplemented column type families in
render_column, and the unreachable NOW default on a non-datetime
column in render_default. -/
inductive MssqlRenderPanic where
  | todoAlterColumn
  | missingDropPkConstraintName
  | unimplementedColumnType
  | nowOnNonDatetimeColumn
deriving DecidableEq, Repr

/-- SqlRenderer::render_default for MssqlFlavour, returning an error
where the source reaches unreachable (NOW on a non-datetime column). -/
def mssqlRenderDefault (default : DefaultValue) (family : ColumnTypeFamily) :
    Except MssqlRenderPanic String :=
  match default, family with
  | .dbGenerated val, _ => .ok val
  | .value (.string val), .string => .ok ("'" ++ replaceChar val singleQuoteChar "''" ++ "'")
  | .value (.enum val), .enum _ => .ok ("'" ++ replaceChar val singleQuoteChar "''" ++ "'")
  | .now, .dateTime => .ok "CURRENT_TIMESTAMP"
  | .now, _ => .error .nowOnNonDatetimeColumn
  | .value val, .dateTime => .ok ("'" ++ val.render ++ "'")
  | .value (.string val), .json => .ok ("'" ++ val ++ "'")
  | .value (.boolean val), .boolean => .ok (if val then "1" else "0")
  | .value val, _ => .ok val.render
  | .sequence _, _ => .ok ""

/-- common::render_nullability.  Modelled from the spec (section 4.5:
column rendering emits the nullability token); common.rs is outside
src. -/
def renderNullability (c : Column) : String :=
  match c.tpe.arity with
  | .required => "NOT NULL"
  | _ => ""

/-- SqlRenderer::render_column for MssqlFlavour.  The SQL type and the
default are evaluated before the autoincrement branch, exactly as in the
source, so their panics fire even for autoincrement columns. -/
def mssqlRenderColumn (column : Column) : Except MssqlRenderPanic String := do
  let columnName := mssqlIdent column.name
  let tpe : String ←
    match column.tpe.family with
    | .boolean => Except.ok "bit"
    | .dateTime => Except.ok "datetime2"
    | .float => Except.ok "decimal(32,16)"
    | .int => Except.ok "int"
    | .string | .json => Except.ok "nvarchar(1000)"
    | _ => Except.error .unimplementedColumnType
  let nullability := renderNullability column
  let default : String ←
    match column.default with
    | some d =>
      if let .dbGenerated _ := d then pure ""
      else do
        let rendered ← mssqlRenderDefault d column.tpe.family
        pure ("DEFAULT " ++ rendered)
    | none => pure ""
  if column.autoIncrement then
    pure (columnName ++ " int IDENTITY(1,1)")
  else
    pure (columnName ++ " " ++ tpe ++ " " ++ nullability ++ " " ++ default)

/-- sql_migration::TableChange, restricted to the payload the MSSQL
renderer consumes. -/
inductive TableChange where
  | addColumn (column : Column)
  | dropColumn (name : String)
  | alterColumn
  | addPrimaryKey (columns : List String)
  | dropPrimaryKey (constraintName : Option String)
deriving DecidableEq, Repr

/-- sql_migration::AlterTable. -/
structure AlterTable where
  table : Table
  changes : List TableChange
deriving DecidableEq, Repr

/-- One line of the MSSQL ALTER TABLE body, per change. -/
def mssqlRenderTableChangeLine : TableChange → Except MssqlRenderPanic String
  | .dropPrimaryKey constraintName =>
    match constraintName with
    | some constraint => .ok ("DROP CONSTRAINT " ++ mssqlIdent constraint)
    | none => .error .missingDropPkConstraintName
  | .addPrimaryKey columns =>
    .ok ("ADD PRIMARY KEY (" ++ joinSep ", " (columns.map mssqlIdent) ++ ")")
  | .addColumn column =>
    match mssqlRenderColumn column with
    | .ok colSql => .ok ("ADD COLUMN " ++ colSql)
    | .error e => .error e
  | .dropColumn name => .ok ("DROP COLUMN " ++ mssqlIdent name)
  | .alterColumn => .error .todoAlterColumn

/-- The lines of the ALTER TABLE body, in change order. -/
def mssqlRenderTableChangeLines : List TableChange → Except MssqlRenderPanic (List String)
  | [] => .ok []
  | c :: cs =>
    match mssqlRenderTableChangeLine c with
    | .error e => .error e
    | .ok line =>
      match mssqlRenderTableChangeLines cs with
      | .error e => .error e
      | .ok rest => .ok (line :: rest)

/-- SqlRenderer::render_alter_table for MssqlFlavour: build one body line
per change, then emit a single ALTER TABLE statement (or none at all when
there is no change). -/
def mssqlRenderAlterTable (alterTable : AlterTable) : Except MssqlRenderPanic (List String) :=
  match mssqlRenderTableChangeLines alterTable.changes with
  | .error e => .error e
  | .ok lines =>
    if lines.isEmpty then .ok []
    else .ok ["ALTER TABLE " ++ mssqlQuoteWithSchema alterTable.table.name ++ " " ++
      joinSep ",\n" lines]

/-! ## Data model (datamodel::dml) -/

/-- datamodel::FieldArity. -/
inductive FieldArity where
  | required
  | optional
  | list
deriving DecidableEq, Repr

/-- datamodel::ScalarType. -/
inductive ScalarType where
  | int
  | float
  | boolean
  | string
  | dateTime
  | json
deriving DecidableEq, Repr

/-- datamodel::FieldType. -/
inductive FieldType where
  | base (scalar : ScalarType) (nativeType : Option String)
  | enum (name : String)
  | unsupported (description : String)
deriving DecidableEq, Repr

/-- datamodel::ValueGenerator, restricted to the generator the embedded
code paths use. -/
inductive ValueGenerator where
  | autoincrement
deriving DecidableEq, Repr

/-- datamodel::DefaultValue. -/
inductive DmlDefault where
  | single (value : PrismaValue)
  | expression (generator : ValueGenerator)
deriving DecidableEq, Repr

/-- datamodel::OnDeleteStrategy. -/
inductive OnDeleteStrategy where
  | none
deriving DecidableEq, Repr

/-- datamodel::ScalarField. -/
structure ScalarField where
  name : String
  arity : FieldArity
  fieldType : FieldType
  databaseName : Option String := .none
  defaultValue : Option DmlDefault := .none
  isUnique : Bool := false
  isId : Bool := false
  documentation : Option String := .none
  isGenerated : Bool := false
  isUpdatedAt : Bool := false
  isCommentedOut : Bool := false
deriving DecidableEq, Repr

/-- datamodel::RelationInfo.  The referenced-model field is called to in
the source; to is a reserved word in Lean, so it is named toModel here. -/
structure RelationInfo where
  toModel : String
  fields : List String
  toFields : List String
  name : String
  onDelete : OnDeleteStrategy := .none
deriving DecidableEq, Repr

/-- datamodel::RelationField. -/
structure RelationField where
  name : String
  arity : FieldArity
  relationInfo : RelationInfo
deriving DecidableEq, Repr

/-- datamodel::Field: the tagged scalar/relation variant. -/
inductive Field where
  | scalarField (sf : ScalarField)
  | relationField (rf : RelationField)
deriving DecidableEq, Repr

/-- The name of a field, over both variants. -/
def Field.name : Field → String
  | .scalarField sf => sf.name
  | .relationField rf => rf.name

/-- datamodel::IndexDefinition. -/
structure IndexDefinition where
  name : Option String
  fields : List String
  tpe : IndexType
deriving DecidableEq, Repr

/-- datamodel::Model. -/
structure Model where
  name : String
  databaseName : Option String := .none
  documentation : Option String := .none
  isEmbedded : Bool := false
  isGenerated : Bool := false
  isCommentedOut : Bool := false
  fields : List Field := []
  indices : List IndexDefinition := []
  idFields : List String := []
deriving DecidableEq, Repr

/-- datamodel::dml::Enum, restricted to the parts the embedding uses. -/
structure DmlEnum where
  name : String
  values : List String
deriving DecidableEq, Repr

/-- datamodel::Datamodel. -/
structure Datamodel where
  models : List Model
  enums : List DmlEnum := []
deriving DecidableEq, Repr

/-! ## Introspector (sql_introspection_connector::calculate_datamodel)

Modelled from the spec: the calculate_datamodel implementation of the
sql-introspection-connector is not under src (only its tests are), so
the definitions of this section follow spec section 4.3 and are pinned by
the in-repository test expectations (common_unit_tests/mod.rs and
relations_with_compound_fk_sqlite.rs).  Implicit many-to-many join-table
detection is not modelled: no schema appearing in the settled claims
contains a table whose name begins with an underscore. -/

/-- Sanitize a column name into a field identifier: the spec names the
dash as the illegal character handled by sanitization (section 4.3). -/
def sanitizeName (name : String) : String :=
  replaceChar name '-' "_"

/-- FieldType, commented-out flag and documentation derived from a
column family (spec section 4.3; pinned by the field mapping spelled out
in a_data_model_can_be_generated_from_a_schema). -/
def calculateScalarFieldType (family : ColumnTypeFamily) :
    FieldType × Bool × Option String :=
  match family with
  | .int => (.base .int .none, false, .none)
  | .float => (.base .float .none, false, .none)
  | .boolean => (.base .boolean .none, false, .none)
  | .string => (.base .string .none, false, .none)
  | .dateTime => (.base .dateTime .none, false, .none)
  | .json => (.base .json .none, false, .none)
  | .enum name => (.enum name, false, .none)
  | .uuid => (.base .string .none, false, .none)
  | other => (.unsupported other.toDisplayString, true,
      .some "This type is currently not supported.")

/-- Column arity to field arity (spec section 4.3: arity maps directly). -/
def columnArityToFieldArity : ColumnArity → FieldArity
  | .required => .required
  | .nullable => .optional
  | .list => .list

/-- Whether a primary key consists of exactly this column. -/
def isSingleColumnPk (table : Table) (columnName : String) : Bool :=
  match table.primaryKey with
  | .some pk => pk.columns == [columnName]
  | .none => false

/-- Whether the table carries a single-column unique index over exactly
this column. -/
def isSingleColumnUnique (table : Table) (columnName : String) : Bool :=
  table.indices.any (fun i => i.tpe == .unique && i.columns == [columnName])

/-- The scalar field introspected from one column (spec section 4.3):
family-derived type, directly mapped arity, autoincrement expression or
literal single default, id flag for a single-column primary key, unique
flag for a single-column unique index, sanitized name with the original
kept as database_name. -/
def calculateScalarField (table : Table) (col : Column) : ScalarField :=
  let (fieldType, isCommentedOut, documentation) := calculateScalarFieldType col.tpe.family
  let sanitized := sanitizeName col.name
  { name := sanitized
    arity := columnArityToFieldArity col.tpe.arity
    fieldType := fieldType
    databaseName := if sanitized != col.name then .some col.name else .none
    defaultValue :=
      if col.autoIncrement then .some (.expression .autoincrement)
      else match col.default with
        | .some (.value v) => .some (.single v)
        | _ => .none
    isUnique := isSingleColumnUnique table col.name
    isId := isSingleColumnPk table col.name
    documentation := documentation
    isCommentedOut := isCommentedOut }

/-- Whether the table has a usable unique identifier: a primary key or a
single-column unique index (spec section 4.3, unsupported tables). -/
def hasUniqueIdentifier (table : Table) : Bool :=
  table.primaryKey.isSome
    || table.indices.any (fun i => i.tpe == .unique && i.columns.length == 1)

/-- The documentation attached to a model without a unique identifier. -/
def noUniqueIdentifierDocumentation : String :=
  "The underlying table does not contain a valid unique identifier and can therefore currently not be handled."

/-- Lookup of a table by name, with an empty table as the fallback the
invariants rule out. -/
def SqlSchema.tableNamed (schema : SqlSchema) (name : String) : Table :=
  (schema.tables.find? (fun t => t.name == name)).getD
    { name := name, columns := [] }

/-- The foreign keys of this table that reference the same table as the
given one. -/
def fksToSameTable (table : Table) (fk : ForeignKey) : List ForeignKey :=
  table.foreignKeys.filter (fun f => f.referencedTable == fk.referencedTable)

/-- The foreign keys of the referenced table that point back at the
owning table. -/
def reverseFks (schema : SqlSchema) (table : Table) (fk : ForeignKey) : List ForeignKey :=
  (schema.tableNamed fk.referencedTable).foreignKeys.filter
    (fun f => f.referencedTable == table.name)

/-- Whether the relation name for this foreign key collides: a second
foreign key between the same pair of models (in either direction), which
in particular covers self-referencing pairs (spec section 4.3, relation
naming). -/
def relationIsAmbiguous (schema : SqlSchema) (table : Table) (fk : ForeignKey) : Bool :=
  2 ≤ (fksToSameTable table fk).length || !(reverseFks schema table fk).isEmpty

/-- Lexicographic strict order on character lists, by code point. -/
def charListLt : List Char → List Char → Bool
  | [], [] => false
  | [], _ :: _ => true
  | _ :: _, [] => false
  | a :: as, b :: bs =>
    if a.toNat < b.toNat then true
    else if b.toNat < a.toNat then false
    else charListLt as bs

/-- The strict string order used by the Rust str comparison in the
relation-naming code, stated over the character list so that it
evaluates. -/
def stringLt (a b : String) : Bool :=
  charListLt a.data b.data

/-- The relation name of an introspected foreign key: AToB with the two
model names in alphabetical order; on a collision the foreign-key column
list joined by underscores is attached to the name of the model owning
the foreign key, which stays in its alphabetical position.  The collision
form is pinned by the in-repository tests: two foreign keys from Post to
User are named Post_user_id_user_ageToUser and a self relation on Person
over partner columns is named PersonToPerson_partner_id_partner_age. -/
def calculateRelationName (schema : SqlSchema) (table : Table) (fk : ForeignKey) : String :=
  let cols := String.intercalate "_" fk.columns
  if !relationIsAmbiguous schema table fk then
    if stringLt table.name fk.referencedTable then
      table.name ++ "To" ++ fk.referencedTable
    else
      fk.referencedTable ++ "To" ++ table.name
  else
    if stringLt table.name fk.referencedTable then
      table.name ++ "_" ++ cols ++ "To" ++ fk.referencedTable
    else
      fk.referencedTable ++ "To" ++ table.name ++ "_" ++ cols

/-- The sanitized scalar-field names of a table. -/
def scalarFieldNames (table : Table) : List String :=
  table.columns.map (fun c => sanitizeName c.name)

/-- Whether this column of the table is Required. -/
def columnIsRequired (table : Table) (columnName : String) : Bool :=
  match table.columns.find? (fun c => c.name == columnName) with
  | .some col => col.tpe.arity == .required
  | .none => false

/-- The forward relation field on the model owning the foreign key (spec
section 4.3): named after the referenced model, suffixed with the
relation name on a collision; Required when every foreign-key column is
Required, Optional otherwise; carrying the local and referenced column
lists. -/
def calculateForwardRelationField (schema : SqlSchema) (table : Table)
    (fk : ForeignKey) : RelationField :=
  let relationName := calculateRelationName schema table fk
  let base := fk.referencedTable
  let name :=
    if 2 ≤ (fksToSameTable table fk).length || (scalarFieldNames table).contains base then
      base ++ "_" ++ relationName
    else base
  { name := name
    arity :=
      if fk.columns.all (fun c => columnIsRequired table c) then .required else .optional
    relationInfo :=
      { toModel := fk.referencedTable
        fields := fk.columns.map sanitizeName
        toFields := fk.referencedColumns
        name := relationName } }

/-- Whether two column-name lists cover the same column set. -/
def sameColumnSet (a : List String) (b : List String) : Bool :=
  a.length == b.length && a.all (fun x => b.contains x) && b.all (fun x => a.contains x)

/-- Whether the owning table carries a unique index whose column set is
exactly the column set of the foreign key (spec section 4.3: the 1:1
condition for the back-reference). -/
def fkCoveredByUniqueIndex (table : Table) (fk : ForeignKey) : Bool :=
  table.indices.any (fun i => i.tpe == .unique && sameColumnSet i.columns fk.columns)

/-- The back-reference relation field added on the referenced model (spec
section 4.3): named after the foreign-key-owning model (prefixed with
other_ for a self relation, suffixed with the relation name on a
collision); Optional when the foreign-key columns form a unique index of
the owning table, List otherwise. -/
def calculateBackRelationField (schema : SqlSchema) (table : Table)
    (fk : ForeignKey) : RelationField :=
  let relationName := calculateRelationName schema table fk
  let base := table.name
  let name :=
    if table.name == fk.referencedTable then "other_" ++ base
    else if 2 ≤ (fksToSameTable table fk).length
        || (scalarFieldNames (schema.tableNamed fk.referencedTable)).contains base then
      base ++ "_" ++ relationName
    else base
  { name := name
    arity := if fkCoveredByUniqueIndex table fk then .optional else .list
    relationInfo :=
      { toModel := table.name
        fields := []
        toFields := []
        name := relationName } }

/-- The index definitions of a model: every table index except the
single-column unique ones, which surface as the is_unique flag instead
(spec section 4.3). -/
def calculateIndexDefinitions (table : Table) : List IndexDefinition :=
  (table.indices.filter
      (fun i => !(i.tpe == .unique && i.columns.length == 1))).map
    (fun i => { name := .some i.name, fields := i.columns.map sanitizeName, tpe := i.tpe })

/-- The compound id_fields of a model: the primary-key columns when the
primary key spans several columns (spec section 4.3). -/
def calculateIdFields (table : Table) : List String :=
  match table.primaryKey with
  | .some pk => if 2 ≤ pk.columns.length then pk.columns.map sanitizeName else []
  | .none => []

/-- The model introspected from one table, before back-references are
added: scalar fields in column order, then the forward relation fields in
foreign-key order; commented out with the standard documentation when the
table has no unique identifier (spec section 4.3). -/
def calculateModelBase (schema : SqlSchema) (table : Table) : Model :=
  { name := table.name
    documentation :=
      if hasUniqueIdentifier table then .none else .some noUniqueIdentifierDocumentation
    isCommentedOut := !hasUniqueIdentifier table
    fields :=
      table.columns.map (fun c => Field.scalarField (calculateScalarField table c))
        ++ table.foreignKeys.map
          (fun fk => Field.relationField (calculateForwardRelationField schema table fk))
    indices := calculateIndexDefinitions table
    idFields := calculateIdFields table }

/-- Append the back-reference field for one foreign key to the model it
references. -/
def addBackRef (schema : SqlSchema) (table : Table) (fk : ForeignKey)
    (models : List Model) : List Model :=
  models.map (fun m =>
    if m.name == fk.referencedTable then
      { m with fields :=
          m.fields ++ [Field.relationField (calculateBackRelationField schema table fk)] }
    else m)

/-- Append every back-reference field, in table order then
foreign-key-declaration order (spec section 4.3, determinism). -/
def addBackRefs (schema : SqlSchema) (models : List Model) : List Model :=
  schema.tables.foldl
    (fun ms table => table.foreignKeys.foldl (fun ms fk => addBackRef schema table fk ms) ms)
    models

/-- calculate_datamodel: one model per table plus the back-reference
fields, and one dml enum per schema enum. -/
def calculateDatamodel (schema : SqlSchema) : Datamodel :=
  { models := addBackRefs schema (schema.tables.map (calculateModelBase schema))
    enums := schema.enums.map (fun e => { name := e.name, values := e.values }) }

/-! ## Postgres native types
(sql_schema_calculator/sql_schema_calculator_flavour/postgres.rs) -/

/-- native_types::PostgresType. -/
inductive PostgresType where
  | smallInt
  | integer
  | bigInt
  | decimal (precision : Nat) (scale : Nat)
  | numeric (precision : Nat) (scale : Nat)
  | real
  | doublePrecision
  | smallSerial
  | serial
  | bigSerial
  | varChar (size : Nat)
  | char (size : Nat)
  | text
  | byteA
  | timestamp (precision : Nat)
  | timestampWithTimeZone (precision : Nat)
  | date
  | time (precision : Nat)
  | timeWithTimeZone (precision : Nat)
  | interval (precision : Nat)
  | boolean
  | bit (size : Nat)
  | varBit (size : Nat)
  | uuid
  | xml
  | json
  | jsonb
  | notHandled
deriving DecidableEq, Repr

/-- The SQL data_type string computed by column_type_for_native_type for
each handled PostgresType, per the source match. -/
def postgresDataType : PostgresType → String
  | .smallInt => "SMALLINT"
  | .integer => "INTEGER"
  | .bigInt => "BIGINT"
  | .decimal precision scale => "DECIMAL(" ++ toString precision ++ ", " ++ toString scale ++ ")"
  | .numeric precision scale => "NUMERIC(" ++ toString precision ++ ", " ++ toString scale ++ ")"
  | .real => "REAL"
  | .doublePrecision => "DOUBLE PRECISION"
  | .smallSerial => "SMALLSERIAL"
  | .serial => "SERIAL"
  | .bigSerial => "BIGSERIAL"
  | .varChar size => "VARCHAR(" ++ toString size ++ ")"
  | .char size => "CHAR(" ++ toString size ++ ")"
  | .text => "TEXT"
  | .byteA => "BYTEA"
  | .timestamp precision => "TIMESTAMP(" ++ toString precision ++ ")"
  | .timestampWithTimeZone precision => "TIMESTAMP(" ++ toString precision ++ ") WITH TIME ZONE"
  | .date => "DATE"
  | .time precision => "TIME(" ++ toString precision ++ ")"
  | .timeWithTimeZone precision => "TIMETZ(" ++ toString precision ++ ")"
  | .interval precision => "INTERVAL(" ++ toString precision ++ ")"
  | .boolean => "BOOLEAN"
  | .bit size => "BIT(" ++ toString size ++ ")"
  | .varBit size => "VARBIT(" ++ toString size ++ ")"
  | .uuid => "UUID"
  | .xml => "XML"
  | .json => "JSON"
  | .jsonb => "JSONB"
  | .notHandled => ""

/-- The arity translation at the end of column_type_for_native_type. -/
def fieldArityToColumnArity : FieldArity → ColumnArity
  | .required => .required
  | .optional => .nullable
  | .list => .list

/-- SqlSchemaCalculatorFlavour::column_type_for_native_type for
PostgresFlavour.  Returns none exactly where the source reaches
unreachable (the NotHandled native type); the serialized argument stands
for native_type_instance.serialized_native_type, copied into the result
as in the source. -/
def columnTypeForNativeType (fieldArity : FieldArity) (postgresType : PostgresType)
    (serialized : String) : Option ColumnType :=
  match postgresType with
  | .notHandled => none
  | t =>
    let dataType := postgresDataType t
    some {
      dataType := dataType
      fullDataType := dataType
      characterMaximumLength := none
      family := .string
      arity := fieldArityToColumnArity fieldArity
      nativeType := some serialized
    }

/-- The type family a reader of the spec would infer from a declared
Postgres native type.  Modelled from the spec: section 4.1 describes
column_type_for_native_type as performing family inference from the
declared native type; this definition spells that inference out for
comparison with the source behaviour. -/
def specInferredFamily : PostgresType → ColumnTypeFamily
  | .smallInt | .integer | .bigInt | .smallSerial | .serial | .bigSerial => .int
  | .decimal _ _ | .numeric _ _ | .real | .doublePrecision => .float
  | .varChar _ | .char _ | .text | .xml => .string
  | .byteA | .bit _ | .varBit _ => .binary
  | .timestamp _ | .timestampWithTimeZone _ | .date | .time _
  | .timeWithTimeZone _ | .interval _ => .dateTime
  | .boolean => .boolean
  | .uuid => .uuid
  | .json | .jsonb => .json
  | .notHandled => .string

/-! ## Migrations folder (migration-engine/core/src/migrations_folder.rs) -/

/-- A filesystem entry: a regular file with contents, or a directory. -/
inductive FsEntry where
  | file (contents : String)
  | dir
deriving Repr

/-- A filesystem as a partial map from paths (component lists) to
entries. -/
def Fs : Type := List String → Option FsEntry

/-- Point update of a filesystem. -/
def Fs.write (fs : Fs) (path : List String) (entry : FsEntry) : Fs :=
  fun p => if p = path then some entry else fs p

/-- The file name produced by joining "migration" to the folder and
applying Path::set_extension with the given extension. -/
def migrationScriptFileName (extension : String) : String :=
  if extension = "" then "migration" else "migration" ++ "." ++ extension

/-- MigrationFolder::write_migration_script: create the file
migration.extension inside the folder and write the script to it. -/
def writeMigrationScript (fs : Fs) (folder : List String) (script : String)
    (extension : String) : Fs :=
  fs.write (folder ++ [migrationScriptFileName extension]) (.file script)

/-- MigrationFolder::read_migration_script: std::fs::read_to_string on
the folder path itself, which yields the contents only when that path is
a regular file. -/
def readMigrationScript (fs : Fs) (folder : List String) : Option String :=
  match fs folder with
  | some (.file contents) => some contents
  | _ => none

/-! ## Concrete schemas from the in-repository tests -/

/-- Model lookup by name. -/
def Datamodel.modelNamed (dm : Datamodel) (name : String) : Option Model :=
  dm.models.find? (fun m => m.name == name)

/-- Field lookup by name. -/
def Model.fieldNamed (m : Model) (name : String) : Option Field :=
  m.fields.find? (fun f => f.name == name)

/-- Field lookup through the datamodel. -/
def Datamodel.fieldOf (dm : Datamodel) (modelName : String) (fieldName : String) :
    Option Field :=
  (dm.modelNamed modelName).bind (fun m => m.fieldNamed fieldName)

/-- The column families of the all-families unit test, in test order. -/
def c1Families : List ColumnTypeFamily :=
  [.int, .float, .boolean, .string, .dateTime, .binary, .json, .uuid,
   .geometric, .logSequenceNumber, .textSearch, .transactionId]

/-- The input schema of a_data_model_can_be_generated_from_a_schema: one
table Table1 with one nullable defaultless column per family, no primary
key, indices or foreign keys. -/
def c1Schema : SqlSchema :=
  { tables := [
      { name := "Table1"
        columns := c1Families.map (fun family =>
          { name := family.toDisplayString
            tpe := ColumnType.pure family .nullable }) }] }

/-- The expected field for one column family, spelled as in the
reference datamodel of the unit test. -/
def c1ExpectedField (family : ColumnTypeFamily) : Field :=
  let (fieldType, isCommentedOut, documentation) :=
    match family with
    | ColumnTypeFamily.boolean => (FieldType.base .boolean .none, false, Option.none)
    | ColumnTypeFamily.dateTime => (FieldType.base .dateTime .none, false, Option.none)
    | ColumnTypeFamily.float => (FieldType.base .float .none, false, Option.none)
    | ColumnTypeFamily.int => (FieldType.base .int .none, false, Option.none)
    | ColumnTypeFamily.string => (FieldType.base .string .none, false, Option.none)
    | ColumnTypeFamily.enum name => (FieldType.enum name, false, Option.none)
    | ColumnTypeFamily.uuid => (FieldType.base .string .none, false, Option.none)
    | ColumnTypeFamily.json => (FieldType.base .json .none, false, Option.none)
    | x => (FieldType.unsupported x.toDisplayString, true,
        Option.some "This type is currently not supported.")
  Field.scalarField
    { name := family.toDisplayString
      arity := .optional
      fieldType := fieldType
      documentation := documentation
      isCommentedOut := isCommentedOut }

/-- The reference datamodel of the unit test: a single commented-out
model Table1 with the standard no-unique-identifier documentation. -/
def c1Expected : Datamodel :=
  { models := [
      { name := "Table1"
        documentation := .some noUniqueIdentifierDocumentation
        isCommentedOut := true
        fields := c1Families.map c1ExpectedField }] }

/-- An Int column of the given name and arity. -/
def intColumn (name : String) (arity : ColumnArity) : Column :=
  { name := name, tpe := ColumnType.pure .int arity }

/-- The User table shared by the compound-foreign-key tests: integer
primary key id with autoincrement, integer age, and the unique index
over (id, age). -/
def fkTestUserTable : Table :=
  { name := "User"
    columns := [
      { name := "id", tpe := ColumnType.pure .int .required, autoIncrement := true },
      intColumn "age" .required]
    indices := [{ name := "sqlite_autoindex_User_1", columns := ["id", "age"], tpe := .unique }]
    primaryKey := .some { columns := ["id"] } }

/-- The Post table of compound_foreign_keys_should_work_for_one_to_many_relations:
nullable compound foreign key to User, no unique index over it. -/
def postTableNoUnique : Table :=
  { name := "Post"
    columns := [
      { name := "id", tpe := ColumnType.pure .int .required, autoIncrement := true },
      intColumn "user_id" .nullable,
      intColumn "user_age" .nullable]
    primaryKey := .some { columns := ["id"] }
    foreignKeys := [
      { columns := ["user_id", "user_age"], referencedTable := "User",
        referencedColumns := ["id", "age"] }] }

/-- The Post table of compound_foreign_keys_should_work_for_one_to_one_relations:
the same foreign key, plus the unique index over exactly its columns. -/
def postTableWithUnique : Table :=
  { postTableNoUnique with
    indices := [
      { name := "sqlite_autoindex_Post_1", columns := ["user_id", "user_age"], tpe := .unique }] }

/-- Schema of the one-to-many compound-foreign-key test. -/
def c2SchemaMany : SqlSchema :=
  { tables := [fkTestUserTable, postTableNoUnique] }

/-- Schema of the one-to-one compound-foreign-key test. -/
def c2SchemaOne : SqlSchema :=
  { tables := [fkTestUserTable, postTableWithUnique] }

/-- The Post table of
compound_foreign_keys_should_work_for_duplicate_one_to_many_relations:
two compound foreign keys to User. -/
def postTableDuplicateFks : Table :=
  { name := "Post"
    columns := [
      { name := "id", tpe := ColumnType.pure .int .required, autoIncrement := true },
      intColumn "user_id" .nullable,
      intColumn "user_age" .nullable,
      intColumn "other_user_id" .nullable,
      intColumn "other_user_age" .nullable]
    primaryKey := .some { columns := ["id"] }
    foreignKeys := [
      { columns := ["user_id", "user_age"], referencedTable := "User",
        referencedColumns := ["id", "age"] },
      { columns := ["other_user_id", "other_user_age"], referencedTable := "User",
        referencedColumns := ["id", "age"] }] }

/-- Schema of the duplicate one-to-many compound-foreign-key test. -/
def c3DupSchema : SqlSchema :=
  { tables := [fkTestUserTable, postTableDuplicateFks] }

/-- The Person table of
compound_foreign_keys_should_work_for_required_self_relations: a
compound self-referencing foreign key over the partner columns. -/
def personTableSelfFk : Table :=
  { name := "Person"
    columns := [
      { name := "id", tpe := ColumnType.pure .int .required, autoIncrement := true },
      intColumn "age" .required,
      intColumn "partner_id" .required,
      intColumn "partner_age" .required]
    indices := [{ name := "sqlite_autoindex_Person_1", columns := ["id", "age"], tpe := .unique }]
    primaryKey := .some { columns := ["id"] }
    foreignKeys := [
      { columns := ["partner_id", "partner_age"], referencedTable := "Person",
        referencedColumns := ["id", "age"] }] }

/-- Schema of the required-self-relation compound-foreign-key test. -/
def c3SelfSchema : SqlSchema :=
  { tables := [personTableSelfFk] }

/-- The first foreign key of the duplicate-relation Post table. -/
def c3DupFk : ForeignKey :=
  { columns := ["user_id", "user_age"], referencedTable := "User",
    referencedColumns := ["id", "age"] }

/-- Relation naming as the claim words it: AToB in alphabetical order,
and on a collision the foreign-key column list joined by underscores is
appended at the end of that name.  Written from the claim for comparison
with calculateRelationName. -/
def claimedRelationName (schema : SqlSchema) (table : Table) (fk : ForeignKey) : String :=
  let base :=
    if stringLt table.name fk.referencedTable then table.name ++ "To" ++ fk.referencedTable
    else fk.referencedTable ++ "To" ++ table.name
  if relationIsAmbiguous schema table fk then
    base ++ "_" ++ String.intercalate "_" fk.columns
  else base

end Prisma

namespace Prisma

/-- C1: on the schema holding a single table Table1 with one nullable,
defaultless, non-autoincrement column per type family and no primary key,
indices or foreign keys, introspection returns exactly one commented-out
model Table1 carrying the no-unique-identifier documentation, whose
fields map Int, Float, Boolean, String, DateTime and Json to their scalar
types, Uuid to String, and every remaining family to an Unsupported type
with the standard documentation and commented-out flag, all Optional. -/
theorem calculateDatamodel_all_column_families :
    calculateDatamodel c1Schema = c1Expected := by
  decide

/-- C2: the back-reference relation field built for a foreign key is
Optional exactly when the owning table carries a unique index over the
foreign-key column set and List otherwise; in particular the introspected
User model carries the field Post of type Post list for the Post table
without a unique index over (user_id, user_age), and Post optional with
that unique index present. -/
theorem backReference_arity_rule :
    (∀ (schema : SqlSchema) (table : Table) (fk : ForeignKey),
      (calculateBackRelationField schema table fk).arity =
        if fkCoveredByUniqueIndex table fk then FieldArity.optional else FieldArity.list)
    ∧ (calculateDatamodel c2SchemaMany).fieldOf "User" "Post" =
        some (Field.relationField
          { name := "Post", arity := .list,
            relationInfo :=
              { toModel := "Post", fields := [], toFields := [], name := "PostToUser" } })
    ∧ (calculateDatamodel c2SchemaOne).fieldOf "User" "Post" =
        some (Field.relationField
          { name := "Post", arity := .optional,
            relationInfo :=
              { toModel := "Post", fields := [], toFields := [], name := "PostToUser" } }) :=
  ⟨fun _ _ _ => rfl, by decide, by decide⟩

/-- C3 counterexample: for the first of two foreign keys from Post to
User the introspected relation name, pinned by the in-repository test
compound_foreign_keys_should_work_for_duplicate_one_to_many_relations,
is Post_user_id_user_ageToUser, while appending the column list to the
alphabetical name as the claim states would give
PostToUser_user_id_user_age. -/
theorem relation_name_counterexample :
    calculateRelationName c3DupSchema postTableDuplicateFks c3DupFk
        = "Post_user_id_user_ageToUser"
    ∧ claimedRelationName c3DupSchema postTableDuplicateFks c3DupFk
        = "PostToUser_user_id_user_age"
    ∧ ("Post_user_id_user_ageToUser" : String) ≠ "PostToUser_user_id_user_age"
    ∧ (calculateDatamodel c3DupSchema).fieldOf "Post" "User_Post_user_id_user_ageToUser" =
        some (Field.relationField
          { name := "User_Post_user_id_user_ageToUser", arity := .optional,
            relationInfo :=
              { toModel := "User", fields := ["user_id", "user_age"],
                toFields := ["id", "age"], name := "Post_user_id_user_ageToUser" } }) := by
  refine ⟨by decide, by decide, by decide, by decide⟩

/-- C3 amended: an unambiguous foreign key is named AToB with the model
names in alphabetical order; on a collision the column list joined by
underscores is attached to the name of the foreign-key-owning model,
which keeps its alphabetical position.  In particular the self relation
of Person over (partner_id, partner_age) is named
PersonToPerson_partner_id_partner_age and the duplicate foreign keys
from Post to User are named Post_user_id_user_ageToUser and
Post_other_user_id_other_user_ageToUser, as the in-repository tests
expect. -/
theorem relation_name_amended :
    (∀ (schema : SqlSchema) (table : Table) (fk : ForeignKey),
      relationIsAmbiguous schema table fk = false →
        calculateRelationName schema table fk =
          if stringLt table.name fk.referencedTable then table.name ++ "To" ++ fk.referencedTable
          else fk.referencedTable ++ "To" ++ table.name)
    ∧ (∀ (schema : SqlSchema) (table : Table) (fk : ForeignKey),
      relationIsAmbiguous schema table fk = true →
        calculateRelationName schema table fk =
          if stringLt table.name fk.referencedTable then
            table.name ++ "_" ++ String.intercalate "_" fk.columns
              ++ "To" ++ fk.referencedTable
          else
            fk.referencedTable ++ "To" ++ table.name
              ++ "_" ++ String.intercalate "_" fk.columns)
    ∧ (calculateDatamodel c3SelfSchema).fieldOf "Person" "Person" =
        some (Field.relationField
          { name := "Person", arity := .required,
            relationInfo :=
              { toModel := "Person", fields := ["partner_id", "partner_age"],
                toFields := ["id", "age"],
                name := "PersonToPerson_partner_id_partner_age" } })
    ∧ (calculateDatamodel c3DupSchema).fieldOf "Post" "User_Post_other_user_id_other_user_ageToUser" =
        some (Field.relationField
          { name := "User_Post_other_user_id_other_user_ageToUser", arity := .optional,
            relationInfo :=
              { toModel := "User", fields := ["other_user_id", "other_user_age"],
                toFields := ["id", "age"],
                name := "Post_other_user_id_other_user_ageToUser" } })
    ∧ (calculateDatamodel c2SchemaMany).fieldOf "Post" "User" =
        some (Field.relationField
          { name := "User", arity := .optional,
            relationInfo :=
              { toModel := "User", fields := ["user_id", "user_age"],
                toFields := ["id", "age"], name := "PostToUser" } }) := by
  refine ⟨?_, ?_, by decide, by decide, by decide⟩
  · intro schema table fk h
    simp [calculateRelationName, h]
  · intro schema table fk h
    simp [calculateRelationName, h]

/-- Witness for the amended C3 theorem: both general naming rules applied
at concrete inputs, an unambiguous foreign key from Post to User and the
first of the two duplicate foreign keys. -/
theorem relation_name_amended_witness :
    calculateRelationName c2SchemaMany postTableNoUnique c3DupFk = "PostToUser"
    ∧ calculateRelationName c3DupSchema postTableDuplicateFks c3DupFk
        = "Post_user_id_user_ageToUser" := by
  constructor
  · have h := relation_name_amended.1 c2SchemaMany postTableNoUnique c3DupFk (by decide)
    simpa using h
  · have h := relation_name_amended.2.1 c3DupSchema postTableDuplicateFks c3DupFk (by decide)
    simpa using h

/-- C4: on an AlterColumn whose arity changed from Nullable to Required
with no default on the next column, the SQLite checker records the
unexecutable MadeOptionalFieldRequired with the table name and the column
name at the given step index. -/
theorem checkAlterColumn_madeOptionalFieldRequired
    (d : ColumnDiffer) (plan : DestructiveCheckPlan) (stepIndex : Nat)
    (hprev : d.previous.tpe.arity = ColumnArity.nullable)
    (hnext : d.next.tpe.arity = ColumnArity.required)
    (hdefault : d.next.default = none) :
    ∃ plan2, checkAlterColumn d plan stepIndex = some plan2 ∧
      (UnexecutableStepCheck.madeOptionalFieldRequired d.tableName d.previous.name, stepIndex)
        ∈ plan2.unexecutables := by
  unfold checkAlterColumn
  rw [hprev, hnext]
  simp [ColumnDiffer.arityChanged, hprev, hnext, hdefault,
    DestructiveCheckPlan.pushUnexecutable, DestructiveCheckPlan.pushWarning]

/-- Witness input for C4: a column of table T going from nullable Int to
required Int with no default. -/
def c4Differ : ColumnDiffer :=
  { tableName := "T"
    previous := { name := "c", tpe := ColumnType.pure .int .nullable }
    next := { name := "c", tpe := ColumnType.pure .int .required } }

/-- Witness for the C4 theorem at the concrete differ c4Differ. -/
theorem checkAlterColumn_madeOptionalFieldRequired_witness :
    c4Differ.previous.tpe.arity = ColumnArity.nullable
    ∧ c4Differ.next.tpe.arity = ColumnArity.required
    ∧ c4Differ.next.default = none
    ∧ ∃ plan2, checkAlterColumn c4Differ {} 7 = some plan2 ∧
        (UnexecutableStepCheck.madeOptionalFieldRequired "T" "c", 7) ∈ plan2.unexecutables :=
  ⟨rfl, rfl, rfl,
    checkAlterColumn_madeOptionalFieldRequired c4Differ {} 7 rfl rfl rfl⟩

/-- The concrete differ refuting the stated C5 warning kind: the type
family changes from Int to String with unchanged Required arity. -/
def c5Differ : ColumnDiffer :=
  { tableName := "T"
    previous := { name := "c", tpe := ColumnType.pure .int .required }
    next := { name := "c", tpe := ColumnType.pure .string .required } }

/-- C5 counterexample: on a type-family change the SQLite checker records
a warning of kind AlterColumn, not TypeChanged. -/
theorem checkAlterColumn_warning_kind_counterexample :
    checkAlterColumn c5Differ {} 0 =
      some { warnings := [(SqlMigrationWarningCheck.alterColumn "T" "c", 0)],
             unexecutables := [] }
    ∧ SqlMigrationWarningCheck.alterColumn "T" "c"
        ≠ SqlMigrationWarningCheck.typeChanged "T" "c" := by
  refine ⟨by decide, by decide⟩

/-- C5 amended: on a type-family change (with non-List arities) the
checker appends exactly one warning, of kind AlterColumn with the table
name and the next column name; when the type is unchanged and the arity
went from Required to Nullable or did not change, the plan is returned
unchanged, recording neither a warning nor an unexecutable. -/
theorem checkAlterColumn_warning_kind_amended
    (d : ColumnDiffer) (plan : DestructiveCheckPlan) (stepIndex : Nat)
    (hprev : d.previous.tpe.arity ≠ ColumnArity.list)
    (hnext : d.next.tpe.arity ≠ ColumnArity.list) :
    (d.typeChanged = true →
      ∃ plan2, checkAlterColumn d plan stepIndex = some plan2 ∧
        plan2.warnings = plan.warnings
          ++ [(SqlMigrationWarningCheck.alterColumn d.tableName d.next.name, stepIndex)])
    ∧ (d.typeChanged = false → d.previous.tpe.arity = ColumnArity.required →
        d.next.tpe.arity = ColumnArity.nullable →
        checkAlterColumn d plan stepIndex = some plan)
    ∧ (d.typeChanged = false → d.previous.tpe.arity = d.next.tpe.arity →
        checkAlterColumn d plan stepIndex = some plan) := by
  cases hp : d.previous.tpe.arity <;> cases hn : d.next.tpe.arity <;>
    first
    | exact absurd hp hprev
    | exact absurd hn hnext
    | (refine ⟨?_, ?_, ?_⟩ <;> intro ht <;>
        simp_all [checkAlterColumn, ColumnDiffer.arityChanged,
          DestructiveCheckPlan.pushUnexecutable, DestructiveCheckPlan.pushWarning] <;>
        (try (split <;> rfl)))

/-- A differ whose arity goes from Required to Nullable with the type
family unchanged: the safe case of the amended C5 theorem. -/
def c5SafeDiffer : ColumnDiffer :=
  { tableName := "T"
    previous := { name := "c", tpe := ColumnType.pure .int .required }
    next := { name := "c", tpe := ColumnType.pure .int .nullable } }

/-- Witness for the amended C5 theorem: the type-changed branch at the
concrete differ c5Differ, and the safe Required-to-Nullable branch at
c5SafeDiffer. -/
theorem checkAlterColumn_warning_kind_amended_witness :
    (∃ plan2, checkAlterColumn c5Differ {} 0 = some plan2 ∧
      plan2.warnings = [(SqlMigrationWarningCheck.alterColumn "T" "c", 0)])
    ∧ checkAlterColumn c5SafeDiffer {} 0 = some {} := by
  constructor
  · have h := (checkAlterColumn_warning_kind_amended c5Differ {} 0
      (by decide) (by decide)).1 (by decide)
    simpa using h
  · exact (checkAlterColumn_warning_kind_amended c5SafeDiffer {} 0
      (by decide) (by decide)).2.1 (by decide) rfl rfl

/-- A unique index over two nullable columns, for the C6 example. -/
def c6Nullable : CreateIndex :=
  { table := "t"
    index := { name := "idx", columns := ["a", "b"], tpe := .unique }
    containsNullableColumns := true }

/-- The same unique index over non-nullable columns. -/
def c6NonNullable : CreateIndex :=
  { table := "t"
    index := { name := "idx", columns := ["a", "b"], tpe := .unique }
    containsNullableColumns := false }

/-- C6: the MSSQL CREATE INDEX statement is the plain statement followed
by the IS NOT NULL filter clause over every index column exactly when the
index is unique and contains nullable columns, and the plain statement
alone otherwise; pinned on a concrete two-column unique index in both
variants. -/
theorem renderCreateIndex_nullable_unique_filter :
    (∀ ci : CreateIndex,
      renderCreateIndex ci =
        createIndexPlainPart ci ++
          (if ci.index.tpe = IndexType.unique ∧ ci.containsNullableColumns = true then
            createIndexFilterClause ci
          else ""))
    ∧ renderCreateIndex c6Nullable =
        "CREATE UNIQUE INDEX [idx] ON dbo.[t]([a], [b]) WHERE [a] IS NOT NULL AND [b] IS NOT NULL"
    ∧ renderCreateIndex c6NonNullable = "CREATE UNIQUE INDEX [idx] ON dbo.[t]([a], [b])" := by
  refine ⟨?_, by decide, by decide⟩
  intro ci
  cases h : ci.index.tpe <;> cases hn : ci.containsNullableColumns <;>
    simp [renderCreateIndex, createIndexPlainPart, createIndexFilterClause, h, hn]

/-- Merging the literal tail of the self-referencing REFERENCES clause. -/
theorem appendNoActionMerge (s : String) :
    s ++ ") " ++ "ON DELETE NO ACTION" ++ " " ++ "ON UPDATE NO ACTION" =
      s ++ ") ON DELETE NO ACTION ON UPDATE NO ACTION" := by
  simp only [String.append_assoc]
  congr 1

/-- C7: the MSSQL REFERENCES clause of a self-referencing foreign key
carries ON DELETE NO ACTION and ON UPDATE NO ACTION whatever the
configured actions are, while a foreign key to another table renders the
configured actions. -/
theorem renderReferences_self_no_action (table : String) (fk : ForeignKey) :
    (table = fk.referencedTable →
      renderReferences table fk =
        " REFERENCES " ++ mssqlQuoteWithSchema fk.referencedTable ++ "(" ++
          joinSep "," (fk.referencedColumns.map mssqlIdent) ++
          ") ON DELETE NO ACTION ON UPDATE NO ACTION"
      ∧ ∀ a b, renderReferences table
          { fk with onDeleteAction := a, onUpdateAction := b } = renderReferences table fk)
    ∧ (table ≠ fk.referencedTable →
      renderReferences table fk =
        " REFERENCES " ++ mssqlQuoteWithSchema fk.referencedTable ++ "(" ++
          joinSep "," (fk.referencedColumns.map mssqlIdent) ++ ") " ++
          renderOnDelete fk.onDeleteAction ++ " " ++ renderOnUpdate fk.onUpdateAction) := by
  constructor
  · intro h
    constructor
    · simp only [renderReferences, h, beq_self_eq_true, if_true]
      exact appendNoActionMerge _
    · intro a b
      simp [renderReferences, h]
  · intro h
    simp [renderReferences, h]

/-- A self-referencing foreign key with configured Cascade actions. -/
def c7SelfFk : ForeignKey :=
  { columns := ["parent_id"], referencedTable := "Tree", referencedColumns := ["id"],
    onDeleteAction := .cascade, onUpdateAction := .cascade }

/-- A foreign key to another table with configured Cascade and SetNull
actions. -/
def c7OtherFk : ForeignKey :=
  { columns := ["user_id"], referencedTable := "User", referencedColumns := ["id"],
    onDeleteAction := .cascade, onUpdateAction := .setNull }

/-- Witness for the C7 theorem: the self branch applied at a Cascade
self-referencing foreign key on Tree, and the other branch at a Cascade
and SetNull foreign key from Post to User. -/
theorem renderReferences_self_no_action_witness :
    renderReferences "Tree" c7SelfFk =
      " REFERENCES dbo.[Tree]([id]) ON DELETE NO ACTION ON UPDATE NO ACTION"
    ∧ renderReferences "Post" c7OtherFk =
      " REFERENCES dbo.[User]([id]) ON DELETE CASCADE ON UPDATE SET NULL" := by
  constructor
  · have h := ((renderReferences_self_no_action "Tree" c7SelfFk).1 rfl).1
    simpa using h
  · have h := (renderReferences_self_no_action "Post" c7OtherFk).2 (by decide)
    simpa using h

/-- C8 counterexample: the Postgres column type computed for the
declared native type Boolean carries the column family String, not the
Boolean family that inference from the declared native type would give;
the same holds for Integer. -/
theorem columnTypeForNativeType_family_counterexample :
    (columnTypeForNativeType .required PostgresType.boolean "Boolean").map
        (fun ct => ct.family) = some ColumnTypeFamily.string
    ∧ specInferredFamily PostgresType.boolean = ColumnTypeFamily.boolean
    ∧ ColumnTypeFamily.string ≠ ColumnTypeFamily.boolean
    ∧ (columnTypeForNativeType .required PostgresType.integer "Integer").map
        (fun ct => ct.family) = some ColumnTypeFamily.string
    ∧ specInferredFamily PostgresType.integer = ColumnTypeFamily.int := by
  refine ⟨by decide, by decide, by decide, by decide, by decide⟩

/-- C8 amended: for every declared Postgres native type other than
NotHandled the computed column type has the data_type string determined
by the native type (VARCHAR(n), TIMESTAMP(p) WITH TIME ZONE, SERIAL and
so on, duplicated into full_data_type), the arity mapped directly from
the field arity, and the column family always String regardless of the
native type. -/
theorem columnTypeForNativeType_amended :
    (∀ (arity : FieldArity) (nt : PostgresType) (s : String),
      nt ≠ PostgresType.notHandled →
        ∃ ct, columnTypeForNativeType arity nt s = some ct ∧
          ct.dataType = postgresDataType nt ∧
          ct.fullDataType = postgresDataType nt ∧
          ct.family = ColumnTypeFamily.string ∧
          ct.arity = fieldArityToColumnArity arity ∧
          ct.nativeType = some s)
    ∧ postgresDataType (PostgresType.varChar 255) = "VARCHAR(255)"
    ∧ postgresDataType (PostgresType.timestampWithTimeZone 3) = "TIMESTAMP(3) WITH TIME ZONE"
    ∧ postgresDataType PostgresType.serial = "SERIAL"
    ∧ fieldArityToColumnArity .required = ColumnArity.required
    ∧ fieldArityToColumnArity .optional = ColumnArity.nullable
    ∧ fieldArityToColumnArity .list = ColumnArity.list := by
  refine ⟨?_, by decide, by decide, by decide, rfl, rfl, rfl⟩
  intro arity nt s h
  cases nt <;>
    first
    | exact absurd rfl h
    | exact ⟨_, rfl, rfl, rfl, rfl, rfl, rfl⟩

/-- Witness for the amended C8 theorem: the general statement applied at
the Optional arity and the VarChar 10 native type. -/
theorem columnTypeForNativeType_amended_witness :
    PostgresType.varChar 10 ≠ PostgresType.notHandled
    ∧ ∃ ct, columnTypeForNativeType .optional (PostgresType.varChar 10) "nt" = some ct ∧
        ct.dataType = postgresDataType (PostgresType.varChar 10) ∧
        ct.fullDataType = postgresDataType (PostgresType.varChar 10) ∧
        ct.family = ColumnTypeFamily.string ∧
        ct.arity = fieldArityToColumnArity .optional ∧
        ct.nativeType = some "nt" :=
  ⟨by decide,
    columnTypeForNativeType_amended.1 .optional (PostgresType.varChar 10) "nt" (by decide)⟩

/-- Whether one table change renders to a line without panicking: not an
AlterColumn, a DropPrimaryKey carrying its constraint name, and an
AddColumn whose column the MSSQL column renderer handles. -/
def tableChangeRenderable : TableChange → Bool
  | .alterColumn => false
  | .dropPrimaryKey .none => false
  | .dropPrimaryKey (.some _) => true
  | .addPrimaryKey _ => true
  | .dropColumn _ => true
  | .addColumn c =>
    match mssqlRenderColumn c with
    | .ok _ => true
    | .error _ => false

/-- A change list containing an AlterColumn never renders to a line
list. -/
theorem lines_error_of_mem_alterColumn (cs : List TableChange)
    (hmem : TableChange.alterColumn ∈ cs) :
    ∀ ls, mssqlRenderTableChangeLines cs ≠ Except.ok ls := by
  induction cs with
  | nil => cases hmem
  | cons c cs ih =>
    intro ls hok
    rcases List.mem_cons.mp hmem with h1 | h2
    · subst h1
      simp [mssqlRenderTableChangeLines, mssqlRenderTableChangeLine] at hok
    · cases hline : mssqlRenderTableChangeLine c with
      | error e => simp [mssqlRenderTableChangeLines, hline] at hok
      | ok line =>
        cases hrest : mssqlRenderTableChangeLines cs with
        | error e => simp [mssqlRenderTableChangeLines, hline, hrest] at hok
        | ok rest => exact ih h2 rest hrest

/-- A renderable change renders to a line. -/
theorem line_ok_of_renderable (c : TableChange) (h : tableChangeRenderable c = true) :
    ∃ l, mssqlRenderTableChangeLine c = Except.ok l := by
  cases c with
  | alterColumn => simp [tableChangeRenderable] at h
  | dropPrimaryKey name =>
    cases name with
    | none => simp [tableChangeRenderable] at h
    | some n => exact ⟨_, rfl⟩
  | addPrimaryKey cols => exact ⟨_, rfl⟩
  | dropColumn n => exact ⟨_, rfl⟩
  | addColumn col =>
    cases hc : mssqlRenderColumn col with
    | ok l => exact ⟨"ADD COLUMN " ++ l, by simp [mssqlRenderTableChangeLine, hc]⟩
    | error e => simp [tableChangeRenderable, hc] at h

/-- A list of renderable changes renders to one line per change. -/
theorem lines_ok_of_renderable (cs : List TableChange)
    (h : ∀ c ∈ cs, tableChangeRenderable c = true) :
    ∃ ls, mssqlRenderTableChangeLines cs = Except.ok ls ∧ ls.length = cs.length := by
  induction cs with
  | nil => exact ⟨[], rfl, rfl⟩
  | cons c cs ih =>
    obtain ⟨l, hl⟩ := line_ok_of_renderable c (h c (List.mem_cons_self c cs))
    obtain ⟨ls, hls, hlen⟩ := ih (fun x hx => h x (List.mem_cons_of_mem c hx))
    exact ⟨l :: ls, by simp [mssqlRenderTableChangeLines, hl, hls], by simp [hlen]⟩

/-- The table used by the C9 inputs. -/
def c9Table : Table := { name := "A", columns := [] }

/-- C9 counterexample: an alter-table step whose only change is a
DropPrimaryKey without a constraint name makes the MSSQL renderer panic
on the unwrap instead of returning a statement list. -/
theorem mssqlRenderAlterTable_counterexample :
    mssqlRenderAlterTable { table := c9Table, changes := [TableChange.dropPrimaryKey .none] }
      = Except.error MssqlRenderPanic.missingDropPkConstraintName := by
  rfl

/-- C9 amended: an alter table containing an AlterColumn change never
returns a statement list (the renderer panics), and an alter table whose
changes are all renderable (drawn from AddColumn, DropColumn,
AddPrimaryKey and DropPrimaryKey, with the DropPrimaryKey constraint
name present and the AddColumn columns handled by the column renderer)
returns at most one ALTER TABLE statement, and none exactly when the
change list is empty. -/
theorem mssqlRenderAlterTable_amended :
    (∀ (a : AlterTable), TableChange.alterColumn ∈ a.changes →
      ∀ ls, mssqlRenderAlterTable a ≠ Except.ok ls)
    ∧ (∀ (a : AlterTable), (∀ c ∈ a.changes, tableChangeRenderable c = true) →
      ∃ ls, mssqlRenderAlterTable a = Except.ok ls ∧ ls.length ≤ 1 ∧
        (ls = [] ↔ a.changes = [])) := by
  constructor
  · intro a hmem ls hok
    cases hlines : mssqlRenderTableChangeLines a.changes with
    | error e => simp [mssqlRenderAlterTable, hlines] at hok
    | ok lines => exact lines_error_of_mem_alterColumn a.changes hmem lines hlines
  · intro a h
    obtain ⟨ls, hls, hlen⟩ := lines_ok_of_renderable a.changes h
    cases ls with
    | nil =>
      have hce : a.changes = [] := by
        cases hcs : a.changes with
        | nil => rfl
        | cons x xs => rw [hcs] at hlen; simp at hlen
      refine ⟨[], by simp [mssqlRenderAlterTable, hls], by simp, by simp [hce]⟩
    | cons l rest =>
      have hcne : a.changes ≠ [] := by
        intro hce
        rw [hce] at hlen
        simp at hlen
      refine ⟨["ALTER TABLE " ++ mssqlQuoteWithSchema a.table.name ++ " " ++
          joinSep ",\n" (l :: rest)],
        by simp [mssqlRenderAlterTable, hls], by simp, by simp [hcne]⟩

/-- Witness for the amended C9 theorem: the AlterColumn branch at a
one-change list, and the renderable branch at a DropColumn plus
AddPrimaryKey list. -/
theorem mssqlRenderAlterTable_amended_witness :
    mssqlRenderAlterTable { table := c9Table, changes := [TableChange.alterColumn] }
        ≠ Except.ok []
    ∧ ∃ ls, mssqlRenderAlterTable
          { table := c9Table,
            changes := [TableChange.dropColumn "x", TableChange.addPrimaryKey ["id"]] }
        = Except.ok ls ∧ ls.length ≤ 1 ∧
        (ls = [] ↔
          ([TableChange.dropColumn "x", TableChange.addPrimaryKey ["id"]]
            : List TableChange) = []) :=
  ⟨mssqlRenderAlterTable_amended.1
      { table := c9Table, changes := [TableChange.alterColumn] } (by decide) [],
    mssqlRenderAlterTable_amended.2
      { table := c9Table,
        changes := [TableChange.dropColumn "x", TableChange.addPrimaryKey ["id"]] }
      (by decide)⟩

/-- C10: write_migration_script writes to the file migration.extension
inside the folder while read_migration_script reads the folder path
itself, a directory; so reading after writing yields no contents, and in
particular never the script that was written. -/
theorem write_read_no_roundtrip (fs : Fs) (folder : List String)
    (script extension : String) (hdir : fs folder = some FsEntry.dir) :
    readMigrationScript (writeMigrationScript fs folder script extension) folder = none
    ∧ readMigrationScript (writeMigrationScript fs folder script extension) folder
        ≠ some script := by
  have hne : folder ≠ folder ++ [migrationScriptFileName extension] := by
    intro h
    have := congrArg List.length h
    simp at this
  have hread :
      readMigrationScript (writeMigrationScript fs folder script extension) folder = none := by
    simp only [readMigrationScript, writeMigrationScript, Fs.write]
    rw [if_neg hne, hdir]
  exact ⟨hread, by simp [hread]⟩

/-- A filesystem holding a single migration directory. -/
def c10Fs : Fs :=
  fun p => if p = ["migrations", "20201201_init"] then some FsEntry.dir else none

/-- Witness for the C10 theorem: a concrete migration folder, script and
extension. -/
theorem write_read_no_roundtrip_witness :
    c10Fs ["migrations", "20201201_init"] = some FsEntry.dir
    ∧ readMigrationScript
        (writeMigrationScript c10Fs ["migrations", "20201201_init"] "CREATE TABLE a (id int)" "sql")
        ["migrations", "20201201_init"] = none :=
  ⟨rfl,
    (write_read_no_roundtrip c10Fs ["migrations", "20201201_init"]
      "CREATE TABLE a (id int)" "sql" rfl).1⟩

end Prisma
